import Mathlib

/-!
# Verification of `backend/java_engine.py` (AI-Code-Explainer)

A shallow embedding of the compile–execute–classify pipeline of
`java_engine.py`.  Text is modelled as `List Char` (ASCII fragment of
Python's unicode semantics for `\w`, `\d`, `\s` and `str.strip`),
Python dicts as ordered association lists, exceptions crossing a
statement boundary as `Except`, and the regular-expression searches of
the `re` module as a leftmost scan over all start positions.  Each
regex of the source is compiled by hand into a deterministic matcher;
greedy quantifiers in these patterns never need to backtrack past the
maximal run (the character following each quantified class is never a
member of the class), which the comments at each matcher justify.
-/

/-- Python `\w` (ASCII fragment): letters, digits, underscore. -/
def isWordChar (c : Char) : Bool :=
  c.isAlphanum || c = '_'

/-- Python `str` whitespace (ASCII fragment), as stripped by `str.strip()`. -/
def pyIsSpace (c : Char) : Bool :=
  c = ' ' || c = '\t' || c = '\n' || c = '\r' || c = '\x0b' || c = '\x0c'

/-- Line separators recognised by Python `str.splitlines()` (ASCII + NEL +
unicode line/paragraph separators). -/
def isLineSep (c : Char) : Bool :=
  c = '\n' || c = '\r' || c = '\x0b' || c = '\x0c' ||
  c = '\x1c' || c = '\x1d' || c = '\x1e' || c = '\x85' ||
  c = ' ' || c = ' '

/-- The character class `[\w.$]` of `_RUNTIME_EXC_RE`. -/
def isClassChar (c : Char) : Bool :=
  isWordChar c || c = '.' || c = '$'

/-- `str.strip()`: drop leading and trailing whitespace. -/
def pyStrip (l : List Char) : List Char :=
  ((l.dropWhile pyIsSpace).reverse.dropWhile pyIsSpace).reverse

/-- `s.splitlines()[0]` for non-empty `s`: the text before the first
line separator. -/
def firstLine (l : List Char) : List Char :=
  l.takeWhile (fun c => !(isLineSep c))

/-- `int(...)` on a run of ASCII digits. -/
def digitsToNat (l : List Char) : Nat :=
  l.foldl (fun n c => n * 10 + (c.toNat - '0'.toNat)) 0

/-- Consume a literal: `consumeLit lit s = some r` iff `s = lit ++ r`. -/
def consumeLit : List Char → List Char → Option (List Char)
  | [], s => some s
  | _ :: _, [] => none
  | a :: lit, c :: s => if a = c then consumeLit lit s else none

theorem consumeLit_eq_some {lit s r : List Char} :
    consumeLit lit s = some r ↔ s = lit ++ r := by
  induction lit generalizing s with
  | nil => simp [consumeLit]
  | cons a lit ih =>
    cases s with
    | nil => simp [consumeLit]
    | cons c s =>
      by_cases h : a = c
      · subst h
        simp only [consumeLit, if_pos rfl, List.cons_append, List.cons.injEq,
          true_and]
        exact ih
      · simp [consumeLit, h, Ne.symm h]

/-- Python `re.search` semantics: try every start position from the left,
return the first success.  `firstFrom f i n` tries `f i, f (i+1), …` for
`n` positions. -/
def firstFrom (f : Nat → Option α) : Nat → Nat → Option α
  | _, 0 => none
  | i, n + 1 =>
    match f i with
    | some a => some a
    | none => firstFrom f (i + 1) n

theorem firstFrom_eq_none_iff {f : Nat → Option α} {i n : Nat} :
    firstFrom f i n = none ↔ ∀ j, i ≤ j → j < i + n → f j = none := by
  induction n generalizing i with
  | zero =>
    simp only [firstFrom, true_iff]
    omega
  | succ n ih =>
    cases h : f i with
    | some a =>
      simp only [firstFrom, h]
      constructor
      · intro hc
        exact absurd hc (by simp)
      · intro hall
        have hi := hall i (le_refl i) (by omega)
        rw [h] at hi
        exact absurd hi (by simp)
    | none =>
      simp only [firstFrom, h]
      rw [ih]
      constructor
      · intro hall j hij hjn
        rcases Nat.eq_or_lt_of_le hij with rfl | hlt
        · exact h
        · exact hall j hlt (by omega)
      · intro hall j hij hjn
        exact hall j (by omega) (by omega)

theorem firstFrom_eq_some_iff {f : Nat → Option α} {i n : Nat} {a : α} :
    firstFrom f i n = some a ↔
      ∃ j, i ≤ j ∧ j < i + n ∧ f j = some a ∧
        ∀ m, i ≤ m → m < j → f m = none := by
  induction n generalizing i with
  | zero =>
    constructor
    · intro hc
      exact absurd hc (by simp [firstFrom])
    · rintro ⟨j, h1, h2, _⟩
      omega
  | succ n ih =>
    cases h : f i with
    | some b =>
      simp only [firstFrom, h, Option.some.injEq]
      constructor
      · rintro rfl
        exact ⟨i, le_refl i, by omega, h, fun m h1 h2 => by omega⟩
      · rintro ⟨j, hij, _, hj, hmin⟩
        rcases Nat.eq_or_lt_of_le hij with rfl | hlt
        · rw [h] at hj
          exact (Option.some.injEq _ _).mp hj
        · rw [hmin i (le_refl i) hlt] at h
          exact absurd h (by simp)
    | none =>
      simp only [firstFrom, h]
      rw [ih]
      constructor
      · rintro ⟨j, hij, hjn, hj, hmin⟩
        refine ⟨j, by omega, by omega, hj, ?_⟩
        intro m h1 h2
        rcases Nat.eq_or_lt_of_le h1 with rfl | hlt
        · exact h
        · exact hmin m hlt h2
      · rintro ⟨j, hij, hjn, hj, hmin⟩
        have hji : i ≠ j := by
          rintro rfl
          rw [h] at hj
          exact absurd hj (by simp)
        refine ⟨j, by omega, by omega, hj, ?_⟩
        intro m h1 h2
        exact hmin m (by omega) h2

/-!
## Regex matchers

Each `…MatchHere` attempts the pattern at the head of its argument
(the suffix of the scanned text starting at the current position);
`…MatchAt t i` adds the zero-width anchor (`\b` or multiline `^`)
at position `i` of `t`.
-/

/-- Does a word boundary `\b` hold before position `i`, for a pattern whose
first literal character is a word character?  (`\b` then reduces to: the
previous character, if any, is not a word character.) -/
def wordBoundaryAt (t : List Char) (i : Nat) : Bool :=
  match i with
  | 0 => true
  | j + 1 =>
    match t[j]? with
    | some c => !(isWordChar c)
    | none => true

/-- Multiline `^`: position `i` is the start of the text or follows `'\n'`. -/
def lineStartAt (t : List Char) (i : Nat) : Bool :=
  match i with
  | 0 => true
  | j + 1 =>
    match t[j]? with
    | some c => c = '\n'
    | none => false

/-- `_JAVAC_LINE_RE` (`\bMain\.java:(\d+):`) attempted at the head of `s`,
returning `int(group(1))`.  The greedy `\d+` needs no backtracking: it must
be followed by `':'`, which is not a digit, so only the maximal digit run
can succeed. -/
def javacMatchHere (s : List Char) : Option Nat :=
  match consumeLit "Main.java:".data s with
  | none => none
  | some r =>
    let d := r.takeWhile Char.isDigit
    if d = [] then none
    else
      match r.dropWhile Char.isDigit with
      | c :: _ => if c = ':' then some (digitsToNat d) else none
      | [] => none

def javacMatchAt (t : List Char) (i : Nat) : Option Nat :=
  if wordBoundaryAt t i then javacMatchHere (t.drop i) else none

/-- `_RUNTIME_EXC_RE` attempted at the head of `s` (which must be at a
line start), returning `group(1)`.

Pattern: `^Exception in thread "[^"]+" ([\w.$]+(?:Exception|Error)[\w.$]*)(?::[^\n]*)?$`.

Backtracking is again unnecessary:
* `[^"]+` cannot match `'"'`, so the only viable run extends exactly to
  the next `'"'` (and must be non-empty);
* the capture group consumes character class `[\w.$]` only, so it must
  consume exactly the maximal `[\w.$]` run `w`; the group matches iff
  `w` contains `Exception` or `Error` starting at index ≥ 1 (the `+` on
  the leading `[\w.$]+` forces a non-empty segment before it);
* after `w`, `(?::[^\n]*)?$` succeeds iff the text is at the end of a
  line (next char `'\n'` or end of input) or continues with `':'`
  (then `[^\n]*` consumes to the line end where `$` holds). -/
def containsExcOrError : List Char → Bool
  | [] => false
  | c :: cs =>
    (consumeLit "Exception".data (c :: cs)).isSome ||
    (consumeLit "Error".data (c :: cs)).isSome ||
    containsExcOrError cs

def excMatchHere (s : List Char) : Option (List Char) :=
  match consumeLit "Exception in thread \"".data s with
  | none => none
  | some r =>
    let q := r.takeWhile (fun c => c ≠ '"')
    if q = [] then none
    else
      match r.dropWhile (fun c => c ≠ '"') with
      | c1 :: c2 :: rest =>
        if c1 = '"' ∧ c2 = ' ' then
          let w := rest.takeWhile isClassChar
          if w = [] then none
          else if (match rest.dropWhile isClassChar with
                   | [] => true
                   | c :: _ => c = '\n' ∨ c = ':') then
            if containsExcOrError (w.drop 1) then some w else none
          else none
        else none
      | _ => none

def excMatchAt (t : List Char) (i : Nat) : Option (List Char) :=
  if lineStartAt t i then excMatchHere (t.drop i) else none

/-- `_RUNTIME_LINE_RE` (`\bat\s+Main\.\w+\(Main\.java:(\d+)\)`) attempted at
the head of `s`, returning `int(group(1))`.  Greedy `\s+`, `\w+`, `\d+` are
each followed by a character outside their class (`'M'`, `'('`, `')'`), so
only the maximal runs can succeed. -/
def lineMatchHere (s : List Char) : Option Nat :=
  match consumeLit "at".data s with
  | none => none
  | some r =>
    if r.takeWhile pyIsSpace = [] then none
    else
      match consumeLit "Main.".data (r.dropWhile pyIsSpace) with
      | none => none
      | some r2 =>
        if r2.takeWhile isWordChar = [] then none
        else
          match r2.dropWhile isWordChar with
          | c :: r3 =>
            if c = '(' then
              match consumeLit "Main.java:".data r3 with
              | none => none
              | some r4 =>
                let d := r4.takeWhile Char.isDigit
                if d = [] then none
                else
                  match r4.dropWhile Char.isDigit with
                  | c2 :: _ => if c2 = ')' then some (digitsToNat d) else none
                  | [] => none
            else none
          | [] => none

def lineMatchAt (t : List Char) (i : Nat) : Option Nat :=
  if wordBoundaryAt t i then lineMatchHere (t.drop i) else none

/-!
## The parse helpers of `java_engine.py`
-/

/-- `_parse_compile_error`: first match of `_JAVAC_LINE_RE`, as an int. -/
def _parse_compile_error (t : List Char) : Option Nat :=
  firstFrom (javacMatchAt t) 0 (t.length + 1)

/-- `full_name.rsplit(".", 1)[-1]`: the segment after the last `'.'`
(the whole string when it has no `'.'`). -/
def rsplitDotTail (l : List Char) : List Char :=
  (l.reverse.takeWhile (fun c => c ≠ '.')).reverse

/-- `_parse_runtime_exception`: the simple exception class name from the
first `_RUNTIME_EXC_RE` match (package prefix dropped via
`group(1).strip().rsplit(".", 1)[-1]`), and the line number from the
first `_RUNTIME_LINE_RE` match.  Either component may be `none`. -/
def _parse_runtime_exception (t : List Char) :
    Option (List Char) × Option Nat :=
  ((firstFrom (excMatchAt t) 0 (t.length + 1)).map
     (fun w => rsplitDotTail (pyStrip w)),
   firstFrom (lineMatchAt t) 0 (t.length + 1))

/-!
## Data model

`_CompileResult` and `_RunResult` are the dataclasses of the source.
`PyExc` models the Python exceptions (subclasses of `Exception`) that the
`try` block of `execute_java_code` can observe and that its `except`
clauses dispatch on: `subprocess.TimeoutExpired`, `FileNotFoundError`,
and any other exception carrying its class name and `str(exc)` rendering.

`PyEnv` is the ambient effectful world of one invocation: the outcome of
each effectful statement of the `try` block (writing `Main.java`, running
`_compile`, running `_run`) as either a value or a raised exception, plus
whether the best-effort `shutil.rmtree(…, ignore_errors=True)` of
`_cleanup` fails to remove the directory.  `execute_java_code` itself is
then a pure function of this environment, mirroring the source
statement by statement.
-/

structure _CompileResult where
  success : Bool
  stderr : List Char
  stdout : List Char
  deriving DecidableEq

structure _RunResult where
  timed_out : Bool
  returncode : Int
  stdout : List Char
  stderr : List Char
  deriving DecidableEq

inductive PyExc where
  /-- `subprocess.TimeoutExpired` -/
  | timeoutExpired
  /-- `FileNotFoundError`, with its `str(exc)` rendering -/
  | fileNotFoundError (msg : List Char)
  /-- any other `Exception`: `type(exc).__name__` and `str(exc)` -/
  | other (name msg : List Char)
  deriving DecidableEq

structure PyEnv where
  /-- exception raised (if any) while writing `code` to `Main.java` -/
  writeExc : Option PyExc
  /-- outcome of `_compile(source_path, sandbox)` -/
  compileOutcome : Except PyExc _CompileResult
  /-- outcome of `_run(sandbox)` (a run-stage timeout is reported inside
  `_RunResult.timed_out`, since `_run` catches `TimeoutExpired` itself) -/
  runOutcome : Except PyExc _RunResult
  /-- whether `shutil.rmtree(directory, ignore_errors=True)` fails to
  remove the sandbox (such a failure is suppressed, never raised) -/
  cleanupFails : Bool

/-- The keys of the returned dict. -/
inductive Key where
  | status
  | error_message
  | exception_type
  | line_number
  | output
  deriving DecidableEq

/-- A Python value stored in the result dict. -/
inductive Value where
  | vs (s : List Char)
  | vn (n : Nat)
  | vnone
  deriving DecidableEq

/-- A Python dict literal: ordered key/value pairs. -/
abbrev Dict := List (Key × Value)

def optNat : Option Nat → Value
  | some n => .vn n
  | none => .vnone

def optStr : Option (List Char) → Value
  | some s => .vs s
  | none => .vnone

/-!
## `execute_java_code`
-/

/-- The `CompilationError` dict (lines 368–373 of `java_engine.py`),
built from `raw_error = (compile_result.stderr or compile_result.stdout).strip()`. -/
def compilationErrorDict (raw : List Char) : Dict :=
  [(.status, .vs "CompilationError".data),
   (.error_message, .vs raw),
   (.line_number, optNat (_parse_compile_error raw)),
   (.output, .vnone)]

/-- The `Timeout` dict.  The same literal appears twice in the source:
for a timed-out run (lines 381–385) and for a compile-stage
`subprocess.TimeoutExpired` (lines 413–417). -/
def timeoutDict : Dict :=
  [(.status, .vs "Timeout".data),
   (.error_message, .vs "Execution time exceeded limit".data),
   (.output, .vnone)]

/-- The `RuntimeError` dict for a faulted run (lines 392–400), built from
the stripped `stderr` and `stdout` of the run. -/
def runtimeFaultDict (stderr stdout : List Char) : Dict :=
  [(.status, .vs "RuntimeError".data),
   (.error_message,
     .vs (if stderr = [] then "Runtime error".data else firstLine stderr)),
   (.exception_type, optStr (_parse_runtime_exception stderr).1),
   (.line_number, optNat (_parse_runtime_exception stderr).2),
   (.output, if stdout = [] then .vnone else .vs stdout)]

/-- The `Success` dict (lines 405–409). -/
def successDict (stdout : List Char) : Dict :=
  [(.status, .vs "Success".data),
   (.error_message, .vnone),
   (.output, .vs stdout)]

/-- The `try` block of `execute_java_code` (lines 351–409): write the
source file, compile, classify a compile failure, run, classify the run.
An exception raised by any statement aborts the block. -/
def tryBody (env : PyEnv) : Except PyExc Dict :=
  match env.writeExc with
  | some e => .error e
  | none =>
    match env.compileOutcome with
    | .error e => .error e
    | .ok compile_result =>
      if !compile_result.success then
        .ok (compilationErrorDict
          (pyStrip (if compile_result.stderr = []
                    then compile_result.stdout
                    else compile_result.stderr)))
      else
        match env.runOutcome with
        | .error e => .error e
        | .ok run_result =>
          if run_result.timed_out then
            .ok timeoutDict
          else
            let stdout := pyStrip run_result.stdout
            let stderr := pyStrip run_result.stderr
            if run_result.returncode ≠ 0 ∨ stderr ≠ [] then
              .ok (runtimeFaultDict stderr stdout)
            else
              .ok (successDict stdout)

/-- The `except` clauses of `execute_java_code` (lines 411–437), in
source order: `subprocess.TimeoutExpired`, then `FileNotFoundError`,
then the catch-all `except Exception`. -/
def handleExc : PyExc → Dict
  | .timeoutExpired => timeoutDict
  | .fileNotFoundError m =>
    [(.status, .vs "RuntimeError".data),
     (.error_message, .vs ("Java toolchain not found on PATH: ".data ++ m)),
     (.exception_type, .vs "EnvironmentError".data),
     (.line_number, .vnone),
     (.output, .vnone)]
  | .other name m =>
    [(.status, .vs "RuntimeError".data),
     (.error_message, .vs ("Internal engine error: ".data ++ m)),
     (.exception_type, .vs name),
     (.line_number, .vnone),
     (.output, .vnone)]

/-- `execute_java_code`: the returned dict. -/
def execute_java_code (env : PyEnv) : Dict :=
  match tryBody env with
  | .ok d => d
  | .error e => handleExc e

/-- `_cleanup` (lines 171–181): `shutil.rmtree(directory, ignore_errors=True)`
inside `try: … except Exception: pass` — it removes the directory unless the
removal itself fails, and never raises either way. -/
def _cleanup (fails : Bool) (dirExists : Bool) : Bool :=
  if fails then dirExists else false

/-- `execute_java_code` together with the sandbox lifecycle: the sandbox
directory is created on entry (`_create_sandbox`) and the `finally`
block applies `_cleanup` on every exit path — after a normal return of
the `try` block and after every `except` clause alike.  Returns the
result dict and whether the sandbox directory still exists afterwards. -/
def execute_java_code_fs (env : PyEnv) : Dict × Bool :=
  let sandboxExists := true
  (execute_java_code env, _cleanup env.cleanupFails sandboxExists)

def keys (d : Dict) : List Key :=
  d.map Prod.fst

/-- The full call including the statement `sandbox = _create_sandbox()`
(line 349), which executes *before* the `try` block: `_create_sandbox`
calls `os.makedirs` (line 167), which can raise an ordinary exception
(`PermissionError`, `OSError`, …), and such an exception reaches no
`except` clause of `execute_java_code` — it propagates to the caller.
`createExc` is the outcome of that statement; only when it is `none`
does the `try`/`except` pipeline run and produce a result dict. -/
def execute_java_code_outer (createExc : Option PyExc) (env : PyEnv) :
    Except PyExc Dict :=
  match createExc with
  | some e => .error e
  | none => .ok (execute_java_code env)

/-!
## Unfolding lemmas for the classifier paths
-/

theorem execute_eq_of_ok {env : PyEnv} {d : Dict} (h : tryBody env = .ok d) :
    execute_java_code env = d := by
  unfold execute_java_code
  rw [h]

theorem execute_eq_of_error {env : PyEnv} {e : PyExc} (h : tryBody env = .error e) :
    execute_java_code env = handleExc e := by
  unfold execute_java_code
  rw [h]

theorem tryBody_compile_fail {env : PyEnv} {cr : _CompileResult}
    (h0 : env.writeExc = none) (h1 : env.compileOutcome = .ok cr)
    (h2 : cr.success = false) :
    tryBody env = .ok (compilationErrorDict
      (pyStrip (if cr.stderr = [] then cr.stdout else cr.stderr))) := by
  simp [tryBody, h0, h1, h2]

theorem tryBody_run_timeout {env : PyEnv} {cr : _CompileResult} {rr : _RunResult}
    (h0 : env.writeExc = none) (h1 : env.compileOutcome = .ok cr)
    (h2 : cr.success = true) (h3 : env.runOutcome = .ok rr)
    (h4 : rr.timed_out = true) :
    tryBody env = .ok timeoutDict := by
  simp [tryBody, h0, h1, h2, h3, h4]

theorem tryBody_run_classify {env : PyEnv} {cr : _CompileResult} {rr : _RunResult}
    (h0 : env.writeExc = none) (h1 : env.compileOutcome = .ok cr)
    (h2 : cr.success = true) (h3 : env.runOutcome = .ok rr)
    (h4 : rr.timed_out = false) :
    tryBody env =
      if rr.returncode ≠ 0 ∨ pyStrip rr.stderr ≠ [] then
        .ok (runtimeFaultDict (pyStrip rr.stderr) (pyStrip rr.stdout))
      else
        .ok (successDict (pyStrip rr.stdout)) := by
  simp only [tryBody, h0, h1, h2, h3, h4, Bool.not_true, Bool.false_eq_true,
    if_false]

theorem tryBody_ok_shape {env : PyEnv} {d : Dict} (h : tryBody env = .ok d) :
    (∃ raw, d = compilationErrorDict raw) ∨ d = timeoutDict ∨
    (∃ se so, d = runtimeFaultDict se so) ∨ (∃ so, d = successDict so) := by
  rcases env with ⟨w, c, r, cl⟩
  cases w with
  | some e => exact absurd h (by simp [tryBody])
  | none =>
    cases c with
    | error e => exact absurd h (by simp [tryBody])
    | ok cr =>
      cases hsuc : cr.success with
      | false =>
        rw [tryBody_compile_fail rfl rfl hsuc] at h
        exact Or.inl ⟨_, (Except.ok.inj h).symm⟩
      | true =>
        cases r with
        | error e => exact absurd h (by simp [tryBody, hsuc])
        | ok rr =>
          cases hto : rr.timed_out with
          | true =>
            rw [tryBody_run_timeout rfl rfl hsuc rfl hto] at h
            exact Or.inr (Or.inl (Except.ok.inj h).symm)
          | false =>
            rw [tryBody_run_classify rfl rfl hsuc rfl hto] at h
            by_cases hf : rr.returncode ≠ 0 ∨ pyStrip rr.stderr ≠ []
            · rw [if_pos hf] at h
              exact Or.inr (Or.inr (Or.inl ⟨_, _, (Except.ok.inj h).symm⟩))
            · rw [if_neg hf] at h
              exact Or.inr (Or.inr (Or.inr ⟨_, (Except.ok.inj h).symm⟩))

/-!
## Claims
-/

/-- C1: for every input (i.e. every outcome of the effectful world of one
invocation), `execute_java_code` returns a dict whose `"status"` is exactly
one of `"Success"`, `"CompilationError"`, `"RuntimeError"`, `"Timeout"`,
and the dict's keys are exactly the keys of that variant's shape: a field
absent from a variant's shape (e.g. `exception_type` on `CompilationError`,
`line_number` on `Success` or `Timeout`) does not appear in the dict. -/
theorem c1_exactly_one_variant (env : PyEnv) :
    ((execute_java_code env).lookup Key.status = some (.vs "Success".data) ∧
       keys (execute_java_code env) = [.status, .error_message, .output]) ∨
    ((execute_java_code env).lookup Key.status = some (.vs "CompilationError".data) ∧
       keys (execute_java_code env) =
         [.status, .error_message, .line_number, .output]) ∨
    ((execute_java_code env).lookup Key.status = some (.vs "RuntimeError".data) ∧
       keys (execute_java_code env) =
         [.status, .error_message, .exception_type, .line_number, .output]) ∨
    ((execute_java_code env).lookup Key.status = some (.vs "Timeout".data) ∧
       keys (execute_java_code env) = [.status, .error_message, .output]) := by
  cases h : tryBody env with
  | error e =>
    rw [execute_eq_of_error h]
    cases e with
    | timeoutExpired => exact Or.inr (Or.inr (Or.inr ⟨rfl, rfl⟩))
    | fileNotFoundError m => exact Or.inr (Or.inr (Or.inl ⟨rfl, rfl⟩))
    | other n m => exact Or.inr (Or.inr (Or.inl ⟨rfl, rfl⟩))
  | ok d =>
    rw [execute_eq_of_ok h]
    rcases tryBody_ok_shape h with ⟨raw, rfl⟩ | rfl | ⟨se, so, rfl⟩ | ⟨so, rfl⟩
    · exact Or.inr (Or.inl ⟨rfl, rfl⟩)
    · exact Or.inr (Or.inr (Or.inr ⟨rfl, rfl⟩))
    · exact Or.inr (Or.inr (Or.inl ⟨rfl, rfl⟩))
    · exact Or.inl ⟨rfl, rfl⟩

def envJavacMissing : PyEnv :=
  ⟨none, .error (.fileNotFoundError "[Errno 2] No such file or directory: 'javac'".data),
   .ok ⟨false, 0, [], []⟩, false⟩

def envInternalFault : PyEnv :=
  ⟨some (.other "ValueError".data "bad mode".data),
   .ok ⟨true, [], []⟩, .ok ⟨false, 0, [], []⟩, false⟩

/-- An exception `os.makedirs` can raise inside `_create_sandbox()`. -/
def createDenied : PyExc :=
  .other "PermissionError".data
    "[Errno 13] Permission denied: '/tmp/java_exec'".data

/-- C2 counterexample: an exception raised by `_create_sandbox()` —
which runs at line 349, *before* the `try` block — reaches no `except`
clause: at this concrete input `execute_java_code` raises the
`PermissionError` instead of returning any result dict, and in
particular does not return the `RuntimeError` dict (with the fault's
own class name as `exception_type`) that the claim predicts for an
unanticipated internal exception. -/
theorem c2_counterexample :
    execute_java_code_outer (some createDenied) envInternalFault =
      .error createDenied ∧
    execute_java_code_outer (some createDenied) envInternalFault ≠
      .ok (handleExc createDenied) := by
  exact ⟨rfl, fun h => Except.noConfusion h⟩

/-- C2 (amended): every exception raised *inside* the `try` block is
resolved locally before returning — once the sandbox has been created
the call always returns a result dict; a `FileNotFoundError` from the
toolchain (missing `javac`/`java` executable) becomes a `RuntimeError`
result with `exception_type "EnvironmentError"`, and any other
exception raised in the `try` block becomes a `RuntimeError` result
whose `exception_type` is that exception's own class name.  However, an
exception raised by `_create_sandbox()` itself, which executes before
the `try`, propagates out of `execute_java_code` uncaught. -/
theorem c2_amended_fault_resolution (env : PyEnv) :
    (∃ d, execute_java_code_outer none env = .ok d) ∧
    (∀ m, tryBody env = .error (.fileNotFoundError m) →
      (execute_java_code env).lookup Key.status =
        some (.vs "RuntimeError".data) ∧
      (execute_java_code env).lookup Key.exception_type =
        some (.vs "EnvironmentError".data)) ∧
    (∀ name msg, tryBody env = .error (.other name msg) →
      (execute_java_code env).lookup Key.status =
        some (.vs "RuntimeError".data) ∧
      (execute_java_code env).lookup Key.exception_type = some (.vs name)) ∧
    (∀ e, execute_java_code_outer (some e) env = .error e) := by
  refine ⟨⟨execute_java_code env, rfl⟩, ?_, ?_, fun e => rfl⟩
  · intro m h
    rw [execute_eq_of_error h]
    exact ⟨rfl, rfl⟩
  · intro name msg h
    rw [execute_eq_of_error h]
    exact ⟨rfl, rfl⟩

theorem c2_amended_witness :
    ((execute_java_code envJavacMissing).lookup Key.status =
       some (.vs "RuntimeError".data) ∧
     (execute_java_code envJavacMissing).lookup Key.exception_type =
       some (.vs "EnvironmentError".data)) ∧
    ((execute_java_code envInternalFault).lookup Key.status =
       some (.vs "RuntimeError".data) ∧
     (execute_java_code envInternalFault).lookup Key.exception_type =
       some (.vs "ValueError".data)) ∧
    execute_java_code_outer (some createDenied) envJavacMissing =
      .error createDenied := by
  refine ⟨?_, ?_, ?_⟩
  · exact (c2_amended_fault_resolution envJavacMissing).2.1 _ rfl
  · exact (c2_amended_fault_resolution envInternalFault).2.2.1 _ _ rfl
  · exact (c2_amended_fault_resolution envJavacMissing).2.2.2 createDenied

/-- The environment of a run that hits the wall-clock execute timeout. -/
def envRunTimedOut : PyEnv :=
  ⟨none, .ok ⟨true, [], []⟩, .ok ⟨true, 0, [], []⟩, false⟩

/-- The environment of a compile stage that raises `subprocess.TimeoutExpired`. -/
def envCompileTimedOut : PyEnv :=
  ⟨none, .error .timeoutExpired, .ok ⟨false, 0, [], []⟩, false⟩

/-- C3 counterexample: on a run timeout the result is indeed the `Timeout`
variant, but its fixed message is `"Execution time exceeded limit"`
(capital `E`, line 383 of `java_engine.py`), not the claimed
`"execution time exceeded limit"`. -/
theorem c3_counterexample :
    (execute_java_code envRunTimedOut).lookup Key.status =
      some (.vs "Timeout".data) ∧
    (execute_java_code envRunTimedOut).lookup Key.error_message =
      some (.vs "Execution time exceeded limit".data) ∧
    (execute_java_code envRunTimedOut).lookup Key.error_message ≠
      some (.vs "execution time exceeded limit".data) := by
  refine ⟨rfl, rfl, ?_⟩
  decide

/-- C3 (amended): a wall-clock timeout in either stage — a compile stage
raising `subprocess.TimeoutExpired`, or a run with `timed_out` set — makes
`execute_java_code` return the `Timeout` variant, never `CompilationError`,
with the fixed message `"Execution time exceeded limit"` and output `None`. -/
theorem c3_amended_timeout_classification (env : PyEnv) :
    (tryBody env = .error .timeoutExpired →
      execute_java_code env = timeoutDict) ∧
    (∀ cr rr, env.writeExc = none → env.compileOutcome = .ok cr →
      cr.success = true → env.runOutcome = .ok rr → rr.timed_out = true →
      execute_java_code env = timeoutDict) ∧
    timeoutDict.lookup Key.status = some (.vs "Timeout".data) ∧
    timeoutDict.lookup Key.status ≠ some (.vs "CompilationError".data) ∧
    timeoutDict.lookup Key.error_message =
      some (.vs "Execution time exceeded limit".data) ∧
    timeoutDict.lookup Key.output = some .vnone := by
  refine ⟨?_, ?_, rfl, by decide, rfl, rfl⟩
  · intro h
    rw [execute_eq_of_error h]
    rfl
  · intro cr rr h0 h1 h2 h3 h4
    exact execute_eq_of_ok (tryBody_run_timeout h0 h1 h2 h3 h4)

theorem c3_witness :
    execute_java_code envRunTimedOut = timeoutDict ∧
    execute_java_code envCompileTimedOut = timeoutDict := by
  constructor
  · exact (c3_amended_timeout_classification envRunTimedOut).2.1
      ⟨true, [], []⟩ ⟨true, 0, [], []⟩ rfl rfl rfl rfl rfl
  · exact (c3_amended_timeout_classification envCompileTimedOut).1 rfl

/-- C9: the sandbox lifecycle.  The `finally` block applies `_cleanup` on
every exit path, so when the (error-suppressing) removal succeeds the
sandbox directory no longer exists once `execute_java_code` returns; and a
failure during cleanup never changes the returned result dict. -/
theorem c9_sandbox_released (env : PyEnv) (b₁ b₂ : Bool) :
    (execute_java_code_fs {env with cleanupFails := false}).2 = false ∧
    (execute_java_code_fs {env with cleanupFails := b₁}).1 =
      (execute_java_code_fs {env with cleanupFails := b₂}).1 ∧
    (execute_java_code_fs env).1 = execute_java_code env := by
  refine ⟨rfl, ?_, rfl⟩
  rcases env with ⟨w, c, r, cl⟩
  rfl

/-- C10: called with a value violating the string precondition, the
`TypeError` raised while writing the source file is caught by the
catch-all handler: the result is a `RuntimeError` dict whose
`exception_type` is `"TypeError"`, with no validation-specific path. -/
theorem c10_non_string_input (env : PyEnv) (msg : List Char)
    (h : env.writeExc = some (.other "TypeError".data msg)) :
    execute_java_code env =
      [(.status, .vs "RuntimeError".data),
       (.error_message, .vs ("Internal engine error: ".data ++ msg)),
       (.exception_type, .vs "TypeError".data),
       (.line_number, .vnone),
       (.output, .vnone)] := by
  have ht : tryBody env = .error (.other "TypeError".data msg) := by
    unfold tryBody
    rw [h]
  rw [execute_eq_of_error ht]
  rfl

def envNoneInput : PyEnv :=
  ⟨some (.other "TypeError".data "write() argument must be str, not None".data),
   .ok ⟨true, [], []⟩, .ok ⟨false, 0, [], []⟩, false⟩

theorem c10_witness :
    execute_java_code envNoneInput =
      [(.status, .vs "RuntimeError".data),
       (.error_message,
         .vs ("Internal engine error: write() argument must be str, not None".data)),
       (.exception_type, .vs "TypeError".data),
       (.line_number, .vnone),
       (.output, .vnone)] := by
  have h := c10_non_string_input envNoneInput
    "write() argument must be str, not None".data rfl
  rw [h]
  decide

theorem lookup_status_runtimeFault (se so : List Char) :
    (runtimeFaultDict se so).lookup Key.status =
      some (.vs "RuntimeError".data) := rfl

theorem lookup_status_success (so : List Char) :
    (successDict so).lookup Key.status = some (.vs "Success".data) := rfl

/-- The environment of a run that exits 0 but writes only whitespace to
stderr: `" \n"` strips to empty, so the code classifies it as `Success`. -/
def envWhitespaceStderr : PyEnv :=
  ⟨none, .ok ⟨true, [], []⟩, .ok ⟨false, 0, "hi\n".data, " \n".data⟩, false⟩

/-- C4 counterexample: after a successful compile and a non-timed-out run
with exit code 0, a run whose raw stderr is non-empty (`" \n"`) is still
classified `Success`, because the code tests the *stripped* stderr
(line 391 tests `stderr` after `run_result.stderr.strip()` on line 388).
So "RuntimeError iff nonzero exit or non-empty stderr" fails as stated. -/
theorem c4_counterexample :
    (execute_java_code envWhitespaceStderr).lookup Key.status =
      some (.vs "Success".data) ∧
    " \n".data ≠ ([] : List Char) ∧ (0 : Int) = 0 := by
  refine ⟨?_, by decide, rfl⟩
  decide

/-- C4 (amended): after a successful compile and a non-timed-out run, the
result is `RuntimeError` iff the exit code is nonzero OR the
whitespace-stripped stderr is non-empty (even with exit code 0);
otherwise the result is `Success`. -/
theorem c4_amended_fault_classification (env : PyEnv)
    (cr : _CompileResult) (rr : _RunResult)
    (h0 : env.writeExc = none) (h1 : env.compileOutcome = .ok cr)
    (h2 : cr.success = true) (h3 : env.runOutcome = .ok rr)
    (h4 : rr.timed_out = false) :
    ((execute_java_code env).lookup Key.status =
        some (.vs "RuntimeError".data) ↔
      rr.returncode ≠ 0 ∨ pyStrip rr.stderr ≠ []) ∧
    ((execute_java_code env).lookup Key.status = some (.vs "Success".data) ↔
      ¬(rr.returncode ≠ 0 ∨ pyStrip rr.stderr ≠ [])) := by
  have h := tryBody_run_classify h0 h1 h2 h3 h4
  by_cases hf : rr.returncode ≠ 0 ∨ pyStrip rr.stderr ≠ []
  · rw [if_pos hf] at h
    rw [execute_eq_of_ok h, lookup_status_runtimeFault]
    refine ⟨⟨fun _ => hf, fun _ => rfl⟩, ?_, fun hc => absurd hf hc⟩
    intro hc
    exact absurd hc (by decide)
  · rw [if_neg hf] at h
    rw [execute_eq_of_ok h, lookup_status_success]
    refine ⟨⟨?_, fun hc => absurd hc hf⟩, fun _ => hf, fun _ => rfl⟩
    intro hc
    exact absurd hc (by decide)

/-- An environment whose run exits 1 with a stack trace on stderr and two
lines of partial output on stdout. -/
def envRunFault : PyEnv :=
  ⟨none, .ok ⟨true, [], []⟩,
   .ok ⟨false, 1, "line one\nline two\n".data,
        "Exception in thread \"main\" java.lang.ArithmeticException: / by zero\n\tat Main.main(Main.java:4)\n".data⟩,
   false⟩

theorem c4_witness :
    (execute_java_code envRunFault).lookup Key.status =
      some (.vs "RuntimeError".data) ∧
    (execute_java_code envWhitespaceStderr).lookup Key.status =
      some (.vs "Success".data) := by
  constructor
  · exact (c4_amended_fault_classification envRunFault _ _
      rfl rfl rfl rfl rfl).1.mpr (by decide)
  · exact (c4_amended_fault_classification envWhitespaceStderr _ _
      rfl rfl rfl rfl rfl).2.mpr (by decide)

theorem lookup_msg_runtimeFault (se so : List Char) :
    (runtimeFaultDict se so).lookup Key.error_message =
      some (.vs (if se = [] then "Runtime error".data else firstLine se)) := rfl

theorem lookup_output_runtimeFault (se so : List Char) :
    (runtimeFaultDict se so).lookup Key.output =
      some (if so = [] then Value.vnone else .vs so) := rfl

theorem lookup_output_success (so : List Char) :
    (successDict so).lookup Key.output = some (.vs so) := rfl

/-- The environment of a run that exits 1 with stderr `"\nboom"`: its raw
first line is empty, but the code reports the first line of the
*stripped* stderr, `"boom"`. -/
def envLeadingNewlineStderr : PyEnv :=
  ⟨none, .ok ⟨true, [], []⟩, .ok ⟨false, 1, [], "\nboom".data⟩, false⟩

/-- C5 counterexample: on a faulted run the reported `error_message` is the
first line of the *stripped* stderr (line 388: `run_result.stderr.strip()`,
line 393: `stderr.splitlines()[0]`), not of the stderr itself: for stderr
`"\nboom"` the first line of stderr is `""` but the message is `"boom"`. -/
theorem c5_counterexample :
    (execute_java_code envLeadingNewlineStderr).lookup Key.error_message =
      some (.vs "boom".data) ∧
    firstLine "\nboom".data = ([] : List Char) ∧
    (execute_java_code envLeadingNewlineStderr).lookup Key.error_message ≠
      some (.vs (firstLine "\nboom".data)) := by
  refine ⟨by decide, by decide, by decide⟩

/-- C5 (amended): when the run faults, `error_message` is the first line
of the whitespace-stripped stderr (or the generic `"Runtime error"` when
the stripped stderr is empty despite the nonzero exit), and `output` is
the trimmed stdout when that is non-empty and `None` otherwise; when the
run succeeds, `output` is the trimmed stdout. -/
theorem c5_amended_fault_reporting (env : PyEnv)
    (cr : _CompileResult) (rr : _RunResult)
    (h0 : env.writeExc = none) (h1 : env.compileOutcome = .ok cr)
    (h2 : cr.success = true) (h3 : env.runOutcome = .ok rr)
    (h4 : rr.timed_out = false) :
    (rr.returncode ≠ 0 ∨ pyStrip rr.stderr ≠ [] →
      (execute_java_code env).lookup Key.error_message =
        some (.vs (if pyStrip rr.stderr = [] then "Runtime error".data
                   else firstLine (pyStrip rr.stderr))) ∧
      (execute_java_code env).lookup Key.output =
        some (if pyStrip rr.stdout = [] then Value.vnone
              else .vs (pyStrip rr.stdout))) ∧
    (¬(rr.returncode ≠ 0 ∨ pyStrip rr.stderr ≠ []) →
      (execute_java_code env).lookup Key.output =
        some (.vs (pyStrip rr.stdout))) := by
  have h := tryBody_run_classify h0 h1 h2 h3 h4
  constructor
  · intro hf
    rw [if_pos hf] at h
    rw [execute_eq_of_ok h]
    exact ⟨lookup_msg_runtimeFault _ _, lookup_output_runtimeFault _ _⟩
  · intro hf
    rw [if_neg hf] at h
    rw [execute_eq_of_ok h]
    exact lookup_output_success _

theorem c5_witness :
    (execute_java_code envRunFault).lookup Key.error_message =
      some (.vs "Exception in thread \"main\" java.lang.ArithmeticException: / by zero".data) ∧
    (execute_java_code envRunFault).lookup Key.output =
      some (.vs "line one\nline two".data) := by
  have h := (c5_amended_fault_reporting envRunFault _ _
    rfl rfl rfl rfl rfl).1 (by decide)
  exact ⟨h.1.trans (by decide), h.2.trans (by decide)⟩

/-!
## Whitespace stripping does not affect the javac first-match search

`execute_java_code` searches `_JAVAC_LINE_RE` in the *stripped* merged
diagnostic text.  The lemmas below show the search result is the same on
the unstripped text: no character of the pattern is whitespace, so no
match can start in, or extend into, the stripped margins, and positions
shift uniformly by the length of the leading margin.
-/

theorem ne_of_space {a c : Char} (ha : pyIsSpace a = false)
    (hc : pyIsSpace c = true) : a ≠ c := by
  intro h
  rw [h, hc] at ha
  exact Bool.noConfusion ha

theorem space_cases {c : Char} (h : pyIsSpace c = true) :
    c = ' ' ∨ c = '\t' ∨ c = '\n' ∨ c = '\r' ∨ c = '\x0b' ∨ c = '\x0c' := by
  have h' := h
  simp only [pyIsSpace, Bool.or_eq_true, decide_eq_true_eq] at h'
  tauto

theorem space_not_wordChar {c : Char} (h : pyIsSpace c = true) :
    isWordChar c = false := by
  rcases space_cases h with rfl | rfl | rfl | rfl | rfl | rfl <;> rfl

theorem space_not_digit {c : Char} (h : pyIsSpace c = true) :
    c.isDigit = false := by
  rcases space_cases h with rfl | rfl | rfl | rfl | rfl | rfl <;> rfl

theorem takeWhile_allnot {p : Char → Bool} {w : List Char}
    (hw : ∀ c ∈ w, p c = false) : w.takeWhile p = [] := by
  cases w with
  | nil => rfl
  | cons a w => simp [List.takeWhile_cons, hw a (by simp)]

theorem dropWhile_allnot {p : Char → Bool} {w : List Char}
    (hw : ∀ c ∈ w, p c = false) : w.dropWhile p = w := by
  cases w with
  | nil => rfl
  | cons a w => simp [List.dropWhile_cons, hw a (by simp)]

theorem takeWhile_append_allnot {p : Char → Bool} {w : List Char}
    (hw : ∀ c ∈ w, p c = false) (x : List Char) :
    (x ++ w).takeWhile p = x.takeWhile p := by
  induction x with
  | nil => simpa using takeWhile_allnot hw
  | cons a x ih =>
    cases hpa : p a <;> simp [List.takeWhile_cons, hpa, ih]

theorem dropWhile_append_allnot {p : Char → Bool} {w : List Char}
    (hw : ∀ c ∈ w, p c = false) (x : List Char) :
    (x ++ w).dropWhile p = x.dropWhile p ++ w := by
  induction x with
  | nil =>
    simpa using dropWhile_allnot hw
  | cons a x ih =>
    cases hpa : p a <;> simp [List.dropWhile_cons, hpa, ih]

theorem consumeLit_append_right {lit w : List Char}
    (hdisj : ∀ a ∈ lit, ∀ c ∈ w, a ≠ c) (x : List Char) :
    consumeLit lit (x ++ w) = (consumeLit lit x).map (fun r => r ++ w) := by
  induction lit generalizing x with
  | nil => simp [consumeLit]
  | cons a lit ih =>
    cases x with
    | nil =>
      cases w with
      | nil => simp [consumeLit]
      | cons c w =>
        have hne : a ≠ c := hdisj a (by simp) c (by simp)
        simp [consumeLit, hne]
    | cons b x =>
      by_cases hab : a = b
      · subst hab
        simp only [List.cons_append, consumeLit, if_pos rfl]
        exact ih (fun a' ha' c hc => hdisj a' (by simp [ha']) c hc) x
      · simp [consumeLit, hab]

theorem javacMatchHere_append_space {w : List Char}
    (hw : ∀ c ∈ w, pyIsSpace c = true) (x : List Char) :
    javacMatchHere (x ++ w) = javacMatchHere x := by
  have hlit : ∀ a ∈ "Main.java:".data, pyIsSpace a = false := by decide
  have hdisj : ∀ a ∈ "Main.java:".data, ∀ c ∈ w, a ≠ c :=
    fun a ha c hc => ne_of_space (hlit a ha) (hw c hc)
  have hdig : ∀ c ∈ w, c.isDigit = false :=
    fun c hc => space_not_digit (hw c hc)
  unfold javacMatchHere
  rw [consumeLit_append_right hdisj]
  cases hc : consumeLit "Main.java:".data x with
  | none => rfl
  | some r =>
    simp only [Option.map_some']
    rw [takeWhile_append_allnot hdig, dropWhile_append_allnot hdig]
    cases hdw : r.dropWhile Char.isDigit with
    | nil =>
      cases hwc : w with
      | nil => rfl
      | cons c w' =>
        have hcc : ¬(c = ':') := by
          have := ne_of_space (a := ':') (by decide)
            (hw c (by rw [hwc]; exact List.mem_cons_self c w'))
          exact fun h => this h.symm
        simp [hcc]
    | cons c rest => rfl

theorem wordBoundaryAt_zero (t : List Char) : wordBoundaryAt t 0 = true := rfl

theorem wordBoundaryAt_succ (t : List Char) (j : Nat) :
    wordBoundaryAt t (j + 1) =
      match t[j]? with
      | some c => !(isWordChar c)
      | none => true := rfl

theorem javacMatchHere_no_M {s : List Char} (h : s.head? ≠ some 'M') :
    javacMatchHere s = none := by
  cases s with
  | nil => rfl
  | cons c s =>
    have hne : ¬('M' = c) := fun he => h (by rw [← he]; rfl)
    unfold javacMatchHere
    rw [show "Main.java:".data = 'M' :: "ain.java:".data from rfl]
    simp [consumeLit, hne]

theorem javacMatchAt_eq_none {t : List Char} {i : Nat}
    (h : t[i]? ≠ some 'M') : javacMatchAt t i = none := by
  unfold javacMatchAt
  rw [javacMatchHere_no_M (by rw [List.head?_drop]; exact h)]
  exact ite_self none

theorem javacMatchAt_lo {w₁ rest : List Char}
    (h₁ : ∀ c ∈ w₁, pyIsSpace c = true) {i : Nat} (hi : i < w₁.length) :
    javacMatchAt (w₁ ++ rest) i = none := by
  apply javacMatchAt_eq_none
  intro h
  rw [List.getElem?_append_left hi] at h
  have hm : 'M' ∈ w₁ := List.getElem?_mem h
  exact ne_of_space (a := 'M') (by decide) (h₁ _ hm) rfl

theorem javacMatchAt_hi {w₁ t' w₂ : List Char}
    (h₂ : ∀ c ∈ w₂, pyIsSpace c = true) {i : Nat}
    (hi : w₁.length + t'.length ≤ i) :
    javacMatchAt (w₁ ++ (t' ++ w₂)) i = none := by
  apply javacMatchAt_eq_none
  intro hgi
  rw [List.getElem?_append_right (by omega : w₁.length ≤ i),
    List.getElem?_append_right (by omega : t'.length ≤ i - w₁.length)] at hgi
  have hc : 'M' ∈ w₂ := List.getElem?_mem hgi
  exact ne_of_space (a := 'M') (by decide) (h₂ _ hc) rfl

theorem javacMatchAt_shift {w₁ t' w₂ : List Char}
    (h₁ : ∀ c ∈ w₁, pyIsSpace c = true) (h₂ : ∀ c ∈ w₂, pyIsSpace c = true)
    {j : Nat} (hj : j ≤ t'.length) :
    javacMatchAt (w₁ ++ (t' ++ w₂)) (w₁.length + j) = javacMatchAt t' j := by
  have hdrop : (w₁ ++ (t' ++ w₂)).drop (w₁.length + j) = t'.drop j ++ w₂ := by
    rw [List.drop_append j, List.drop_append_eq_append_drop,
      Nat.sub_eq_zero_of_le hj, List.drop_zero]
  have hbnd : wordBoundaryAt (w₁ ++ (t' ++ w₂)) (w₁.length + j) =
      wordBoundaryAt t' j := by
    cases j with
    | zero =>
      rw [wordBoundaryAt_zero]
      rcases Nat.eq_zero_or_pos w₁.length with hk | hk
      · rw [Nat.add_zero, hk, wordBoundaryAt_zero]
      · obtain ⟨m, hm⟩ : ∃ m, w₁.length = m + 1 :=
          ⟨w₁.length - 1, by omega⟩
        have hmlt : m < w₁.length := by omega
        rw [Nat.add_zero, hm, wordBoundaryAt_succ,
          List.getElem?_append_left hmlt, List.getElem?_eq_getElem hmlt]
        have := space_not_wordChar (h₁ _ (List.getElem_mem hmlt))
        simp [this]
    | succ j' =>
      have hj' : j' < t'.length := by omega
      rw [show w₁.length + (j' + 1) = (w₁.length + j') + 1 by omega,
        wordBoundaryAt_succ, wordBoundaryAt_succ,
        List.getElem?_append_right (by omega : w₁.length ≤ w₁.length + j'),
        show w₁.length + j' - w₁.length = j' by omega,
        List.getElem?_append_left hj']
  unfold javacMatchAt
  rw [hdrop, hbnd, javacMatchHere_append_space h₂]

/-- The `_JAVAC_LINE_RE` search ignores all-whitespace margins. -/
theorem parse_compile_append {w₁ w₂ : List Char} (t' : List Char)
    (h₁ : ∀ c ∈ w₁, pyIsSpace c = true) (h₂ : ∀ c ∈ w₂, pyIsSpace c = true) :
    _parse_compile_error (w₁ ++ (t' ++ w₂)) = _parse_compile_error t' := by
  unfold _parse_compile_error
  have hlen : (w₁ ++ (t' ++ w₂)).length =
      w₁.length + (t'.length + w₂.length) := by
    simp
  cases hres : firstFrom (javacMatchAt t') 0 (t'.length + 1) with
  | some a =>
    rw [firstFrom_eq_some_iff]
    rw [firstFrom_eq_some_iff] at hres
    obtain ⟨j, -, hjlt, hj, hmin⟩ := hres
    have hjle : j ≤ t'.length := by omega
    refine ⟨w₁.length + j, by omega, by omega, ?_, ?_⟩
    · rw [javacMatchAt_shift h₁ h₂ hjle]
      exact hj
    · intro m _ hm
      rcases Nat.lt_or_ge m w₁.length with hlo | hge
      · exact javacMatchAt_lo h₁ hlo
      · rw [show m = w₁.length + (m - w₁.length) by omega,
          javacMatchAt_shift h₁ h₂ (by omega)]
        exact hmin _ (by omega) (by omega)
  | none =>
    rw [firstFrom_eq_none_iff]
    rw [firstFrom_eq_none_iff] at hres
    intro i _ hilt
    rcases Nat.lt_or_ge i w₁.length with hlo | hge
    · exact javacMatchAt_lo h₁ hlo
    · rcases Nat.lt_or_ge (w₁.length + t'.length) i with hhi | hmid
      · exact javacMatchAt_hi h₂ (by omega)
      · rw [show i = w₁.length + (i - w₁.length) by omega,
          javacMatchAt_shift h₁ h₂ (by omega)]
        exact hres _ (by omega) (by omega)

theorem pyStrip_decomposition (t : List Char) :
    ∃ w₁ w₂, t = w₁ ++ (pyStrip t ++ w₂) ∧
      (∀ c ∈ w₁, pyIsSpace c = true) ∧ (∀ c ∈ w₂, pyIsSpace c = true) := by
  refine ⟨t.takeWhile pyIsSpace,
    ((t.dropWhile pyIsSpace).reverse.takeWhile pyIsSpace).reverse, ?_, ?_, ?_⟩
  · conv_lhs => rw [← List.takeWhile_append_dropWhile (p := pyIsSpace) (l := t)]
    congr 1
    conv_lhs => rw [← List.reverse_reverse (t.dropWhile pyIsSpace),
      ← List.takeWhile_append_dropWhile (p := pyIsSpace)
        (l := (t.dropWhile pyIsSpace).reverse)]
    rw [List.reverse_append]
    rfl
  · intro c hc
    exact List.mem_takeWhile_imp hc
  · intro c hc
    rw [List.mem_reverse] at hc
    exact List.mem_takeWhile_imp hc

/-- Stripping the diagnostic text does not change the result of the
`_JAVAC_LINE_RE` first-match search. -/
theorem parse_compile_pyStrip (t : List Char) :
    _parse_compile_error (pyStrip t) = _parse_compile_error t := by
  obtain ⟨w₁, w₂, ht, h₁, h₂⟩ := pyStrip_decomposition t
  conv_rhs => rw [ht]
  exact (parse_compile_append (pyStrip t) h₁ h₂).symm

/-- A successful `_JAVAC_LINE_RE` match at position `i` is literally the
text `Main.java:<digits>:` at that position, and the extracted value is
the digit run. -/
theorem javacMatchAt_spec {t : List Char} {i n : Nat}
    (h : javacMatchAt t i = some n) :
    ∃ d rest, t.drop i = "Main.java:".data ++ (d ++ ':' :: rest) ∧
      d ≠ [] ∧ (∀ c ∈ d, c.isDigit = true) ∧ n = digitsToNat d := by
  unfold javacMatchAt at h
  rcases hb : wordBoundaryAt t i with _ | _
  · rw [hb] at h
    exact absurd h (by simp)
  · rw [hb, if_pos rfl] at h
    unfold javacMatchHere at h
    cases hc : consumeLit "Main.java:".data (t.drop i) with
    | none =>
      rw [hc] at h
      exact absurd h (by simp)
    | some r =>
      rw [hc] at h
      dsimp only at h
      by_cases hd : r.takeWhile Char.isDigit = []
      · rw [if_pos hd] at h
        exact absurd h (by simp)
      · rw [if_neg hd] at h
        cases hdw : r.dropWhile Char.isDigit with
        | nil =>
          rw [hdw] at h
          exact absurd h (by simp)
        | cons c rest =>
          rw [hdw] at h
          dsimp only at h
          by_cases hcc : c = ':'
          · rw [if_pos hcc] at h
            subst hcc
            refine ⟨r.takeWhile Char.isDigit, rest, ?_, hd, ?_, ?_⟩
            · rw [consumeLit_eq_some.mp hc]
              congr 1
              rw [← hdw]
              exact (List.takeWhile_append_dropWhile ..).symm
            · intro x hx
              exact List.mem_takeWhile_imp hx
            · exact (Option.some.inj h).symm
          · rw [if_neg hcc] at h
            exact absurd h (by simp)

theorem lookup_line_compilationError (raw : List Char) :
    (compilationErrorDict raw).lookup Key.line_number =
      some (optNat (_parse_compile_error raw)) := rfl

/-- C6: on compile failure, `line_number` is the value of the first match
of the fixed pattern `Main.java:<line>:` in the diagnostic text — the
compiler's stderr, falling back to stdout only when stderr is empty
(whitespace-stripping it first, which the search ignores) — and is `None`
when no match exists; later matches are never surfaced (the surfaced
match is the one at the least position, all earlier positions failing). -/
theorem c6_first_compile_error_line (env : PyEnv) (cr : _CompileResult)
    (raw : List Char) (h0 : env.writeExc = none)
    (h1 : env.compileOutcome = .ok cr) (h2 : cr.success = false)
    (hraw : raw = if cr.stderr = [] then cr.stdout else cr.stderr) :
    ((execute_java_code env).lookup Key.line_number =
      some (optNat (_parse_compile_error raw))) ∧
    (∀ n, _parse_compile_error raw = some n →
      ∃ i, javacMatchAt raw i = some n ∧ ∀ j, j < i → javacMatchAt raw j = none) ∧
    (_parse_compile_error raw = none →
      (execute_java_code env).lookup Key.line_number = some Value.vnone) ∧
    (∀ i n, javacMatchAt raw i = some n →
      ∃ d rest, raw.drop i = "Main.java:".data ++ (d ++ ':' :: rest) ∧
        d ≠ [] ∧ (∀ c ∈ d, c.isDigit = true) ∧ n = digitsToNat d) := by
  have hdict := execute_eq_of_ok (tryBody_compile_fail h0 h1 h2)
  rw [← hraw] at hdict
  have hlook : (execute_java_code env).lookup Key.line_number =
      some (optNat (_parse_compile_error raw)) := by
    rw [hdict, lookup_line_compilationError, parse_compile_pyStrip]
  refine ⟨hlook, ?_, ?_, fun i n h => javacMatchAt_spec h⟩
  · intro n hn
    unfold _parse_compile_error at hn
    rw [firstFrom_eq_some_iff] at hn
    obtain ⟨j, -, -, hj, hmin⟩ := hn
    exact ⟨j, hj, fun m hm => hmin m (by omega) hm⟩
  · intro hn
    rw [hlook, hn]
    rfl

def envCompileFail : PyEnv :=
  ⟨none,
   .ok ⟨false, "Main.java:3: error: ';' expected\nMain.java:7: error: reached end of file\n2 errors\n".data, []⟩,
   .ok ⟨false, 0, [], []⟩, false⟩

theorem c6_witness :
    (execute_java_code envCompileFail).lookup Key.line_number =
      some (.vn 3) := by
  have h := (c6_first_compile_error_line envCompileFail
    ⟨false, "Main.java:3: error: ';' expected\nMain.java:7: error: reached end of file\n2 errors\n".data, []⟩
    _ rfl rfl rfl rfl).1
  exact h.trans (by decide)

theorem space_not_classChar {c : Char} (h : pyIsSpace c = true) :
    isClassChar c = false := by
  rcases space_cases h with rfl | rfl | rfl | rfl | rfl | rfl <;> rfl

theorem class_not_space {c : Char} (h : isClassChar c = true) :
    pyIsSpace c = false := by
  cases hsp : pyIsSpace c with
  | false => rfl
  | true =>
    rw [space_not_classChar hsp] at h
    exact Bool.noConfusion h

theorem pyStrip_eq_self {l : List Char} (h : ∀ c ∈ l, pyIsSpace c = false) :
    pyStrip l = l := by
  unfold pyStrip
  rw [dropWhile_allnot h,
    dropWhile_allnot (fun c hc => h c (List.mem_reverse.mp hc)),
    List.reverse_reverse]

/-- A successful `_RUNTIME_EXC_RE` match captures a run of `[\w.$]`
characters only. -/
theorem excMatchHere_isClass {s w : List Char}
    (h : excMatchHere s = some w) : ∀ c ∈ w, isClassChar c = true := by
  unfold excMatchHere at h
  cases hc : consumeLit "Exception in thread \"".data s with
  | none =>
    rw [hc] at h
    exact absurd h (by simp)
  | some r =>
    rw [hc] at h
    dsimp only at h
    by_cases hq : r.takeWhile (fun c => c ≠ '"') = []
    · rw [if_pos hq] at h
      exact absurd h (by simp)
    · rw [if_neg hq] at h
      cases hdw : r.dropWhile (fun c => c ≠ '"') with
      | nil =>
        rw [hdw] at h
        exact absurd h (by simp)
      | cons c1 tail =>
        cases tail with
        | nil =>
          rw [hdw] at h
          exact absurd h (by simp)
        | cons c2 rest =>
          rw [hdw] at h
          dsimp only at h
          split at h
          · by_cases hw : rest.takeWhile isClassChar = []
            · rw [if_pos hw] at h
              exact absurd h (by simp)
            · rw [if_neg hw] at h
              split at h
              · split at h
                · intro c hcw
                  rw [← Option.some.inj h] at hcw
                  exact List.mem_takeWhile_imp hcw
                · exact absurd h (by simp)
              · exact absurd h (by simp)
          · exact absurd h (by simp)

theorem excMatchAt_isClass {t : List Char} {i : Nat} {w : List Char}
    (h : excMatchAt t i = some w) : ∀ c ∈ w, isClassChar c = true := by
  unfold excMatchAt at h
  split at h
  · exact excMatchHere_isClass h
  · exact absurd h (by simp)

/-- `rsplit(".", 1)[-1]` really is the segment after the final `'.'`:
it contains no `'.'` and the input is that segment, optionally preceded
by a prefix ending in `'.'`. -/
theorem rsplitDotTail_spec (l : List Char) :
    ('.' ∉ rsplitDotTail l) ∧
      (l = rsplitDotTail l ∨ ∃ p, l = p ++ '.' :: rsplitDotTail l) := by
  constructor
  · intro hc
    rw [rsplitDotTail, List.mem_reverse] at hc
    have := List.mem_takeWhile_imp hc
    simp at this
  · cases hbc : l.reverse.dropWhile (fun c => c ≠ '.') with
    | nil =>
      left
      conv_lhs => rw [← List.reverse_reverse l,
        ← List.takeWhile_append_dropWhile (p := fun c => c ≠ '.')
          (l := l.reverse)]
      rw [hbc, List.append_nil]
      rfl
    | cons c bt =>
      right
      have hcdot : c = '.' := by
        have hh := List.head?_dropWhile_not (fun c => c ≠ '.') l.reverse
        rw [hbc] at hh
        simpa using hh
      refine ⟨bt.reverse, ?_⟩
      conv_lhs => rw [← List.reverse_reverse l,
        ← List.takeWhile_append_dropWhile (p := fun c => c ≠ '.')
          (l := l.reverse)]
      rw [hbc, hcdot, List.reverse_append, List.reverse_cons,
        List.append_assoc, List.singleton_append]
      rfl

theorem lookup_exctype_runtimeFault (se so : List Char) :
    (runtimeFaultDict se so).lookup Key.exception_type =
      some (optStr (_parse_runtime_exception se).1) := rfl

theorem lookup_line_runtimeFault (se so : List Char) :
    (runtimeFaultDict se so).lookup Key.line_number =
      some (optNat (_parse_runtime_exception se).2) := rfl

/-- C7: for every stderr text whose exception header matches, the parsed
`exception_type` is only the simple type name: the matched (possibly
fully-qualified) class name equals the result after dropping an optional
package prefix ending in `'.'`, and the result contains no `'.'`.  When
no header matches, the `exception_type` component is `None`.  On a
faulted run the `RuntimeError` dict's `exception_type` field carries
exactly this component. -/
theorem c7_simple_exception_name (t : List Char) :
    (firstFrom (excMatchAt t) 0 (t.length + 1) = none →
      (_parse_runtime_exception t).1 = none) ∧
    (∀ w, firstFrom (excMatchAt t) 0 (t.length + 1) = some w →
      ∃ ty, (_parse_runtime_exception t).1 = some ty ∧ ('.' ∉ ty) ∧
        (w = ty ∨ ∃ p, w = p ++ '.' :: ty)) ∧
    (∀ env cr rr, env.writeExc = none → env.compileOutcome = .ok cr →
      cr.success = true → env.runOutcome = .ok rr → rr.timed_out = false →
      rr.returncode ≠ 0 ∨ pyStrip rr.stderr ≠ [] →
      (execute_java_code env).lookup Key.exception_type =
        some (optStr (_parse_runtime_exception (pyStrip rr.stderr)).1)) := by
  refine ⟨?_, ?_, ?_⟩
  · intro h
    unfold _parse_runtime_exception
    rw [h]
    rfl
  · intro w h
    have hclass : ∀ c ∈ w, isClassChar c = true := by
      rw [firstFrom_eq_some_iff] at h
      obtain ⟨j, -, -, hj, -⟩ := h
      exact excMatchAt_isClass hj
    have hstrip : pyStrip w = w :=
      pyStrip_eq_self (fun c hc => class_not_space (hclass c hc))
    refine ⟨rsplitDotTail w, ?_, (rsplitDotTail_spec w).1,
      (rsplitDotTail_spec w).2⟩
    unfold _parse_runtime_exception
    rw [h, Option.map_some', hstrip]
  · intro env cr rr h0 h1 h2 h3 h4 hf
    have h := tryBody_run_classify h0 h1 h2 h3 h4
    rw [if_pos hf] at h
    rw [execute_eq_of_ok h]
    exact lookup_exctype_runtimeFault _ _

theorem c7_witness :
    (execute_java_code envRunFault).lookup Key.exception_type =
      some (.vs "ArithmeticException".data) ∧
    (∃ ty,
      (_parse_runtime_exception
        "Exception in thread \"main\" java.lang.ArithmeticException: / by zero".data).1 =
          some ty ∧ ('.' ∉ ty) ∧
      ("java.lang.ArithmeticException".data = ty ∨
        ∃ p, "java.lang.ArithmeticException".data = p ++ '.' :: ty)) := by
  constructor
  · have h := (c7_simple_exception_name (pyStrip
      "Exception in thread \"main\" java.lang.ArithmeticException: / by zero\n\tat Main.main(Main.java:4)\n".data)).2.2
      envRunFault _ _ rfl rfl rfl rfl rfl (by decide)
    exact h.trans (by decide)
  · exact (c7_simple_exception_name _).2.1
      "java.lang.ArithmeticException".data (by decide)

/-- A successful `_RUNTIME_LINE_RE` match at position `i` is literally a
stack-frame reference `at <spaces>Main.<method>(Main.java:<digits>)` to
the submitted source file at that position — frames of library or runtime
classes cannot produce it — and the extracted value is the digit run. -/
theorem lineMatchAt_spec {t : List Char} {i n : Nat}
    (h : lineMatchAt t i = some n) :
    ∃ ws m d rest,
      t.drop i = "at".data ++ (ws ++ ("Main.".data ++ (m ++ '(' ::
        ("Main.java:".data ++ (d ++ ')' :: rest))))) ∧
      ws ≠ [] ∧ (∀ c ∈ ws, pyIsSpace c = true) ∧
      m ≠ [] ∧ (∀ c ∈ m, isWordChar c = true) ∧
      d ≠ [] ∧ (∀ c ∈ d, c.isDigit = true) ∧ n = digitsToNat d := by
  unfold lineMatchAt at h
  split at h
  case isFalse => exact absurd h (by simp)
  case isTrue =>
  unfold lineMatchHere at h
  cases hc : consumeLit "at".data (t.drop i) with
  | none =>
    rw [hc] at h
    exact absurd h (by simp)
  | some r =>
  rw [hc] at h
  dsimp only at h
  by_cases hws : r.takeWhile pyIsSpace = []
  · rw [if_pos hws] at h
    exact absurd h (by simp)
  rw [if_neg hws] at h
  cases hc2 : consumeLit "Main.".data (r.dropWhile pyIsSpace) with
  | none =>
    rw [hc2] at h
    exact absurd h (by simp)
  | some r2 =>
  rw [hc2] at h
  dsimp only at h
  by_cases hm : r2.takeWhile isWordChar = []
  · rw [if_pos hm] at h
    exact absurd h (by simp)
  rw [if_neg hm] at h
  cases hdw2 : r2.dropWhile isWordChar with
  | nil =>
    rw [hdw2] at h
    exact absurd h (by simp)
  | cons c r3 =>
  rw [hdw2] at h
  dsimp only at h
  by_cases hpar : c = '('
  case neg =>
    rw [if_neg hpar] at h
    exact absurd h (by simp)
  case pos =>
  subst hpar
  rw [if_pos rfl] at h
  cases hc3 : consumeLit "Main.java:".data r3 with
  | none =>
    rw [hc3] at h
    exact absurd h (by simp)
  | some r4 =>
  rw [hc3] at h
  dsimp only at h
  by_cases hd : r4.takeWhile Char.isDigit = []
  · rw [if_pos hd] at h
    exact absurd h (by simp)
  rw [if_neg hd] at h
  cases hdw4 : r4.dropWhile Char.isDigit with
  | nil =>
    rw [hdw4] at h
    exact absurd h (by simp)
  | cons c2 tail =>
  rw [hdw4] at h
  dsimp only at h
  by_cases hcp : c2 = ')'
  case neg =>
    rw [if_neg hcp] at h
    exact absurd h (by simp)
  case pos =>
  subst hcp
  rw [if_pos rfl] at h
  refine ⟨r.takeWhile pyIsSpace, r2.takeWhile isWordChar,
    r4.takeWhile Char.isDigit, tail, ?_, hws,
    fun c hc => List.mem_takeWhile_imp hc, hm,
    fun c hc => List.mem_takeWhile_imp hc, hd,
    fun c hc => List.mem_takeWhile_imp hc, (Option.some.inj h).symm⟩
  rw [consumeLit_eq_some.mp hc]
  congr 1
  conv_lhs => rw [← List.takeWhile_append_dropWhile (p := pyIsSpace) (l := r)]
  congr 1
  rw [consumeLit_eq_some.mp hc2]
  congr 1
  conv_lhs => rw [← List.takeWhile_append_dropWhile (p := isWordChar) (l := r2)]
  rw [hdw2]
  congr 1
  rw [consumeLit_eq_some.mp hc3]
  congr 1
  conv_lhs => rw [← List.takeWhile_append_dropWhile (p := Char.isDigit) (l := r4)]
  rw [hdw4]

/-- C8: the runtime `line_number` component is the first (leftmost) match
of the `Main.java` stack-frame pattern in the scanned stderr text — a
match is literally a frame referencing the submitted source file by its
fixed entry-type name (`lineMatchAt_spec`), so frames inside library or
runtime code are ignored — and is `None` when no such frame exists; the
outcome of a faulted run is reported as `RuntimeError` regardless, with
the parsed (possibly absent) `line_number` in its dict. -/
theorem c8_first_main_frame (t : List Char) :
    ((_parse_runtime_exception t).2 =
      firstFrom (lineMatchAt t) 0 (t.length + 1)) ∧
    (∀ n, firstFrom (lineMatchAt t) 0 (t.length + 1) = some n →
      ∃ i, lineMatchAt t i = some n ∧ ∀ j, j < i → lineMatchAt t j = none) ∧
    (firstFrom (lineMatchAt t) 0 (t.length + 1) = none →
      (_parse_runtime_exception t).2 = none) ∧
    (∀ i n, lineMatchAt t i = some n →
      ∃ ws m d rest,
        t.drop i = "at".data ++ (ws ++ ("Main.".data ++ (m ++ '(' ::
          ("Main.java:".data ++ (d ++ ')' :: rest))))) ∧
        ws ≠ [] ∧ (∀ c ∈ ws, pyIsSpace c = true) ∧
        m ≠ [] ∧ (∀ c ∈ m, isWordChar c = true) ∧
        d ≠ [] ∧ (∀ c ∈ d, c.isDigit = true) ∧ n = digitsToNat d) ∧
    (∀ env cr rr, env.writeExc = none → env.compileOutcome = .ok cr →
      cr.success = true → env.runOutcome = .ok rr → rr.timed_out = false →
      rr.returncode ≠ 0 ∨ pyStrip rr.stderr ≠ [] →
      (execute_java_code env).lookup Key.status =
        some (.vs "RuntimeError".data) ∧
      (execute_java_code env).lookup Key.line_number =
        some (optNat (_parse_runtime_exception (pyStrip rr.stderr)).2)) := by
  refine ⟨rfl, ?_, ?_, fun i n h => lineMatchAt_spec h, ?_⟩
  · intro n hn
    rw [firstFrom_eq_some_iff] at hn
    obtain ⟨j, -, -, hj, hmin⟩ := hn
    exact ⟨j, hj, fun m hm => hmin m (by omega) hm⟩
  · intro hn
    unfold _parse_runtime_exception
    rw [hn]
  · intro env cr rr h0 h1 h2 h3 h4 hf
    have h := tryBody_run_classify h0 h1 h2 h3 h4
    rw [if_pos hf] at h
    rw [execute_eq_of_ok h]
    exact ⟨lookup_status_runtimeFault _ _, lookup_line_runtimeFault _ _⟩

set_option maxRecDepth 100000 in
theorem c8_witness :
    (_parse_runtime_exception
      "Exception in thread \"main\" java.lang.RuntimeException\n\tat java.base.Thread.run(Thread.java:833)\n\tat Main.helper(Main.java:7)\n\tat Main.main(Main.java:2)".data).2 =
      some 7 ∧
    (execute_java_code envRunFault).lookup Key.line_number =
      some (.vn 4) := by
  constructor
  · exact (c8_first_main_frame _).1.trans (by decide)
  · have h := ((c8_first_main_frame (pyStrip
      "Exception in thread \"main\" java.lang.ArithmeticException: / by zero\n\tat Main.main(Main.java:4)\n".data)).2.2.2.2
      envRunFault _ _ rfl rfl rfl rfl rfl (by decide)).2
    exact h.trans (by decide)
